import Mathlib

/-
Verification development for the wacom-keymapper tool (src/main.py).

The file shallowly embeds the program:
  * strings are Lean `String`s (Python `str.strip()` becomes `pyStrip`,
    restricted to the ASCII whitespace characters that actually occur in
    the tool's data: space, tab, newline, carriage return, vertical tab,
    form feed);
  * the regular expression `device_matcher_` and its `fullmatch` are
    embedded as the executable function `device_matcher_fullmatch_`,
    reproducing the backtracking semantics of the pattern
    `(.+?)\s+id:\s+(\d+)\s+type:\s+(.*?)\s*$`;
  * external effects (the `xsetwacom get` / `xsetwacom set` subprocess
    calls, the `--list devices` call, and the interactive prompt) are
    recorded as an event trace `List Ev`; the observed output of the
    read command is supplied by an oracle `reader : String → String →
    String` mapping (property, parameter) to the raw stdout text;
  * JSON values produced by `json.load` are the inductive `PyVal`, with
    Python's `in` operator (`pyContains`), truthiness (`pyFalsy`) and
    string subscripting (`pyGetItem`) modelled on it; a failed
    `open`/`json.load` is `none`.
-/

/-- ASCII whitespace, as recognised by Python's `str.strip()` and the
regex class `\s` (the embedding is restricted to ASCII text). -/
def isPySpace (c : Char) : Bool :=
  c.toNat == 32 || c.toNat == 9 || c.toNat == 10 ||
  c.toNat == 13 || c.toNat == 11 || c.toNat == 12

/-- ASCII decimal digit, the regex class `\d` on ASCII text. -/
def isPyDigit (c : Char) : Bool :=
  48 ≤ c.toNat && c.toNat ≤ 57

/-- Remove leading and trailing whitespace from a character list:
Python's `str.strip()` with no arguments. -/
def pyStripL (cs : List Char) : List Char :=
  ((cs.dropWhile isPySpace).reverse.dropWhile isPySpace).reverse

/-- Python's `str.strip()` on a `String`. -/
def pyStrip (s : String) : String :=
  String.mk (pyStripL s.toList)

/-- Consume an exact literal from the front of a character list,
returning the remainder, or `none` if the literal is not there. -/
def dropLit : List Char → List Char → Option (List Char)
  | [], cs => some cs
  | _ :: _, [] => none
  | l :: ls, c :: cs => if c = l then dropLit ls cs else none

/-- Remove trailing whitespace (the final `\s*$` of the device regex). -/
def rstripWs (cs : List Char) : List Char :=
  (cs.reverse.dropWhile isPySpace).reverse

/-- Match the part of the device regex that follows the lazy name group:
`\s+id:\s+(\d+)\s+type:\s+(.*?)\s*$`, anchored at both ends of `cs`.
Every quantifier here is forced: each greedy `\s+` run is followed by a
non-whitespace literal (or by `(\d+)`), and the digit run is followed by
`\s+`, so no backtracking inside this suffix can change the outcome; the
final lazy `(.*?)\s*$` makes the third group the remainder with its
trailing whitespace removed.  Returns `(id, type)` capture groups. -/
def matchTail (cs : List Char) : Option (String × String) :=
  let ws1 := cs.takeWhile isPySpace
  let r1 := cs.dropWhile isPySpace
  if ws1.isEmpty then none else
  match dropLit ['i', 'd', ':'] r1 with
  | none => none
  | some r2 =>
    let ws2 := r2.takeWhile isPySpace
    let r3 := r2.dropWhile isPySpace
    if ws2.isEmpty then none else
    let ds := r3.takeWhile isPyDigit
    let r4 := r3.dropWhile isPyDigit
    if ds.isEmpty then none else
    let ws3 := r4.takeWhile isPySpace
    let r5 := r4.dropWhile isPySpace
    if ws3.isEmpty then none else
    match dropLit ['t', 'y', 'p', 'e', ':'] r5 with
    | none => none
    | some r6 =>
      let ws4 := r6.takeWhile isPySpace
      let r7 := r6.dropWhile isPySpace
      if ws4.isEmpty then none else
      let g3 := rstripWs r7
      if g3.contains '\n' then none
      else some (String.mk ds, String.mk g3)

/-- The lazy name group `(.+?)`: try prefixes of increasing length
(shortest first, as a lazy quantifier does), requiring the rest of the
pattern to match the corresponding suffix.  `.` does not match a
newline, so a prefix containing `'\n'` (and hence every longer one)
fails.  `acc` is the prefix tried so far. -/
def matchName (acc : List Char) : List Char → Option (String × String × String)
  | [] => none
  | c :: rest =>
    if c = '\n' then none
    else
      match matchTail rest with
      | some (i, t) => some (String.mk (acc ++ [c]), i, t)
      | none => matchName (acc ++ [c]) rest

/-- `device_matcher_.fullmatch(line)` from src/main.py line 41: the
pattern `^(.+?)\s+id:\s+(\d+)\s+type:\s+(.*?)\s*$` applied to one line
of `xsetwacom --list devices` output.  Returns the capture groups
`(name, id, type)` on a match, `none` otherwise. -/
def device_matcher_fullmatch_ (line : String) : Option (String × String × String) :=
  matchName [] line.toList

/-- JSON values as returned by Python's `json.load` (floats are not
modelled; none of the verified behaviour involves them). -/
inductive PyVal where
  | str (s : String)
  | num (n : Int)
  | bool (b : Bool)
  | null
  | list (xs : List PyVal)
  | dict (entries : List (String × PyVal))

/-- Python `==` between an arbitrary value and a `str`: only another
equal `str` compares equal; values of other types are never equal to a
string. -/
def pyEqStr (v : PyVal) (s : String) : Bool :=
  match v with
  | PyVal.str t => t == s
  | _ => false

/-- The body of `get_device_id_` (src/main.py lines 45-61), applied to
the lines of `xsetwacom --list devices` output: scan the lines in
order; on a line that fullmatches the device regex and whose name and
type groups compare `==` to the requested name and type, return the id
group; otherwise keep scanning; return `none` when no line matches.
The name and type arguments are the values `dict_["name"]` and
`dict_["type"]` the script passes in, hence `PyVal`s compared with
Python `==`. -/
def get_device_id_ (name ty : PyVal) : List String → Option String
  | [] => none
  | l :: rest =>
    match device_matcher_fullmatch_ l with
    | some (n, i, t) =>
      if pyEqStr name n && pyEqStr ty t then some i
      else get_device_id_ name ty rest
    | none => get_device_id_ name ty rest

/-- Does `s` occur as a contiguous run at the front of `h`? -/
def leadsL : List Char → List Char → Bool
  | [], _ => true
  | _ :: _, [] => false
  | c :: cs, d :: ds => c = d && leadsL cs ds

/-- Does `n` occur as a contiguous substring of `h`?  This is Python's
`in` operator on two strings. -/
def hasSubL (n : List Char) : List Char → Bool
  | [] => leadsL n []
  | d :: ds => leadsL n (d :: ds) || hasSubL n ds

/-- Python's `in` operator with a `str` on the left: key membership on a
dict, element membership on a list, substring test on a str, and a
`TypeError` (`none`) on non-iterable values (numbers, booleans, null). -/
def pyContains (k : String) : PyVal → Option Bool
  | PyVal.dict es => some ((es.map Prod.fst).contains k)
  | PyVal.list xs => some (xs.any (fun x => pyEqStr x k))
  | PyVal.str s => some (hasSubL k.toList s.toList)
  | _ => none

/-- Python truthiness: `not v` in `if not dict_` / `if not id_`. -/
def pyFalsy : PyVal → Bool
  | PyVal.str s => s.isEmpty
  | PyVal.num n => n == 0
  | PyVal.bool b => !b
  | PyVal.null => true
  | PyVal.list xs => xs.isEmpty
  | PyVal.dict es => es.isEmpty

/-- First-match association lookup; `json.load` never produces a dict
with duplicate keys (later duplicates in the file overwrite earlier
ones), so first-match agrees with Python dict lookup on every value the
program can see. -/
def lookupStr (k : String) : List (String × PyVal) → Option PyVal
  | [] => none
  | (k2, v) :: rest => if k2 = k then some v else lookupStr k rest

/-- Python subscripting `v["k"]`: dict lookup (`none` = `KeyError`);
subscripting a non-dict with a string raises `TypeError` (`none`). -/
def pyGetItem (k : String) : PyVal → Option PyVal
  | PyVal.dict es => lookupStr k es
  | _ => none

/-- Possible results of `parse_mapping_file_`: an uncaught exception
escaping the membership tests, a `return None`, or a returned document. -/
inductive PyResult where
  | raised
  | retNone
  | retDoc (v : PyVal)

/-- `parse_mapping_file_` (src/main.py lines 63-79).  The argument is
the outcome of `open` + `json.load`: `none` when either raised (the
bare `except` catches it and the function returns `None`), `some a`
when a JSON value was produced.  The function then tests `_b not in _a`
for `"name"`, `"type"`, `"map"` in that order, returning `None` on the
first missing one, and otherwise returns the parsed value itself.  The
membership test raises `TypeError` (uncaught) on non-iterable values. -/
def parse_mapping_file_ : Option PyVal → PyResult
  | none => PyResult.retNone
  | some a =>
    match pyContains "name" a with
    | none => PyResult.raised
    | some false => PyResult.retNone
    | some true =>
      match pyContains "type" a with
      | none => PyResult.raised
      | some false => PyResult.retNone
      | some true =>
        match pyContains "map" a with
        | none => PyResult.raised
        | some false => PyResult.retNone
        | some true => PyResult.retDoc a

/-- Formalises the spec's notion of `a top-level field being present`:
only an object (dict) document has top-level fields. -/
def hasTopField (v : PyVal) (k : String) : Bool :=
  match v with
  | PyVal.dict es => (es.map Prod.fst).contains k
  | _ => false

/-- External-interface events of one run, in order: the device
enumeration call, one `xsetwacom get` per State Reader call (with the
full argument vector), the interactive prompt, and one `xsetwacom set`
per State Writer call. -/
inductive Ev where
  | listDev
  | get (cmd : List String)
  | prompt
  | set (cmd : List String)
deriving DecidableEq

/-- How `configure_map_` can end: `return True` (converged), `return
False` (abandoned), an uncaught `TypeError`, or an uncaught `EOFError`
from `input()` when stdin is exhausted. -/
inductive Outcome where
  | retTrue
  | retFalse
  | typeErr
  | eofErr
deriving DecidableEq

/-- Result of one `check_map_` pass: the returned boolean `_m`, the
per-rule YES/NO audit column in rule order, and the reader calls
issued.  The `name_`/`type_` parameters of the source function feed
only `print` and are not modelled. -/
structure CheckOut where
  ok : Bool
  perRule : List Bool
  tr : List Ev
deriving DecidableEq

/-- `check_map_` (src/main.py lines 90-116): for every rule in order,
run `xsetwacom get id_ rule[0] rule[1]`, capture stdout, and compare
`stdout.strip() == rule[2].strip()`; `_m` starts `True` and is cleared
by any mismatch.  Rules are the JSON rule lists; `getD` stands for the
subscripts `_a[0]`, `_a[1]`, `_a[2]` (Python raises `IndexError` on a
rule shorter than 3, so the theorems below quantify over rules of
length at least 3 where the distinction could matter). -/
def check_map_ (id : String) (reader : String → String → String) :
    List (List String) → CheckOut
  | [] => { ok := true, perRule := [], tr := [] }
  | r :: rs =>
    let out := reader (r.getD 0 "") (r.getD 1 "")
    let b := pyStrip out == pyStrip (r.getD 2 "")
    let rest := check_map_ id reader rs
    { ok := b && rest.ok
      perRule := b :: rest.perRule
      tr := Ev.get ["xsetwacom", "get", id, r.getD 0 "", r.getD 1 ""] :: rest.tr }

/-- `apply_map_` (src/main.py lines 81-88): for every rule in order,
run `xsetwacom set id_ rule[0] rule[1] rule[2]`.  The return codes are
not inspected; the value of the function is the list of issued write
commands. -/
def apply_map_ (id : String) : List (List String) → List Ev
  | [] => []
  | r :: rs =>
    Ev.set ["xsetwacom", "set", id, r.getD 0 "", r.getD 1 "", r.getD 2 ""] ::
      apply_map_ id rs

/-- The inner `while True` prompt loop of `configure_map_` (src/main.py
lines 129-135) on a finite list of console inputs.  Each iteration
issues one prompt and reads one answer.  On `"y"` the source executes
`apply_map_(id_=id_, map_=map_, name_=name_, type_=type_)` — but
`apply_map_` is declared with only the parameters `id_` and `map_`
(line 81), so Python raises `TypeError: unexpected keyword argument`
at the call, before the body of `apply_map_` runs: no write command is
issued and the exception propagates out of `configure_map_`
(`Outcome.typeErr`).  On `"n"` the loop returns `False`.  On any other
answer it re-prompts without any external call.  When the input list is
exhausted, `input()` raises `EOFError` (`Outcome.eofErr`). -/
def prompt_loop_ : List String → Outcome × List Ev
  | [] => (Outcome.eofErr, [])
  | ans :: rest =>
    if ans = "y" then (Outcome.typeErr, [Ev.prompt])
    else if ans = "n" then (Outcome.retFalse, [Ev.prompt])
    else
      let r := prompt_loop_ rest
      (r.1, Ev.prompt :: r.2)

/-- Final state and trace of `configure_map_`. -/
structure CfgOut where
  out : Outcome
  tr : List Ev
deriving DecidableEq

/-- `configure_map_` (src/main.py lines 118-135).  The outer
`while True` runs one `check_map_` pass; on success it returns `True`.
Otherwise control enters the prompt loop.  In the source, the only way
back to the top of the outer loop is the `break` after the
`apply_map_` call — which is unreachable, because that call raises
`TypeError` first (see `prompt_loop_`); hence the outer loop body runs
at most once and the function is total on finite input lists. -/
def configure_map_ (id : String) (reader : String → String → String)
    (rules : List (List String)) (inputs : List String) : CfgOut :=
  let c := check_map_ id reader rules
  if c.ok then { out := Outcome.retTrue, tr := c.tr }
  else
    let p := prompt_loop_ inputs
    { out := p.1, tr := c.tr ++ p.2 }

/-- Read a JSON array of strings as a rule; anything else is outside
the shape the reconciler consumes. -/
def asStrings : List PyVal → Option (List String)
  | [] => some []
  | PyVal.str s :: xs =>
    match asStrings xs with
    | some l => some (s :: l)
    | none => none
  | _ => none

/-- Read one JSON value as a rule (a list of strings). -/
def asRule : PyVal → Option (List String)
  | PyVal.list xs => asStrings xs
  | _ => none

/-- Read a list of JSON values as a rule list. -/
def asRuleList : List PyVal → Option (List (List String))
  | [] => some []
  | x :: xs =>
    match asRule x, asRuleList xs with
    | some r, some rs => some (r :: rs)
    | _, _ => none

/-- Read the document's `map` value as a rule list. -/
def asRules : PyVal → Option (List (List String))
  | PyVal.list xs => asRuleList xs
  | _ => none

/-- How the script part of src/main.py (lines 155-183) can end.  The
`shutil.which` gate is upstream of everything modelled here and is
omitted.  `illTypedMap` marks documents whose `map` value is not a list
of lists of strings; the source would push such values into the
per-element subscripting of `check_map_`, outside the shape the spec
says rules are trusted to have, and no claim depends on that branch. -/
inductive RunOut where
  | exitNoFile
  | exitBadMap
  | exitNoDevice
  | crashed
  | illTypedMap
  | finished (o : Outcome)
deriving DecidableEq

/-- The script (src/main.py lines 171-183): locate a mapping file
(`found` is whether `find_mapping_file_` succeeded), parse it, exit if
the parse returned a falsy value, resolve the device id from
`dict_["name"]` / `dict_["type"]` (subscripting a non-dict document
raises `TypeError`), exit if no device matched, and finally run
`configure_map_` on `dict_["map"]`.  The second component is the trace
of external-interface events, in order: `Ev.listDev` is the
`xsetwacom --list devices` call issued inside `get_device_id_`. -/
def run_ (found : Bool) (parsed : Option PyVal) (devLines : List String)
    (reader : String → String → String) (inputs : List String) :
    RunOut × List Ev :=
  if found then
    match parse_mapping_file_ parsed with
    | PyResult.raised => (RunOut.crashed, [])
    | PyResult.retNone => (RunOut.exitBadMap, [])
    | PyResult.retDoc doc =>
      if pyFalsy doc then (RunOut.exitBadMap, [])
      else
        match pyGetItem "name" doc, pyGetItem "type" doc with
        | some nameV, some tyV =>
          (match get_device_id_ nameV tyV devLines with
          | none => (RunOut.exitNoDevice, [Ev.listDev])
          | some id =>
            match pyGetItem "map" doc with
            | none => (RunOut.crashed, [Ev.listDev])
            | some mapV =>
              match asRules mapV with
              | none => (RunOut.illTypedMap, [Ev.listDev])
              | some rules =>
                let c := configure_map_ id reader rules inputs
                (RunOut.finished c.out, Ev.listDev :: c.tr))
        | _, _ => (RunOut.crashed, [])
  else (RunOut.exitNoFile, [])


/-- The reader calls of one checking pass: one `xsetwacom get` per rule,
in document order, whatever the observed values are. -/
theorem check_map_tr (id : String) (reader : String → String → String)
    (rules : List (List String)) :
    (check_map_ id reader rules).tr =
      rules.map (fun r => Ev.get ["xsetwacom", "get", id, r.getD 0 "", r.getD 1 ""]) := by
  induction rules with
  | nil => rfl
  | cons r rs ih => simp [check_map_, ih]

/-- The per-rule audit column records, for each rule, whether the
trimmed observed value equals the trimmed expected value. -/
theorem check_map_perRule (id : String) (reader : String → String → String)
    (rules : List (List String)) :
    (check_map_ id reader rules).perRule =
      rules.map (fun r =>
        pyStrip (reader (r.getD 0 "") (r.getD 1 "")) == pyStrip (r.getD 2 "")) := by
  induction rules with
  | nil => rfl
  | cons r rs ih => simp [check_map_, ih]

/-- The boolean `_m` returned by `check_map_` is true exactly when every
rule's trimmed observed value equals its trimmed expected value. -/
theorem check_map_ok_iff (id : String) (reader : String → String → String)
    (rules : List (List String)) :
    (check_map_ id reader rules).ok = true ↔
      ∀ r ∈ rules,
        pyStrip (reader (r.getD 0 "") (r.getD 1 "")) = pyStrip (r.getD 2 "") := by
  induction rules with
  | nil => simp [check_map_]
  | cons r rs ih => simp [check_map_, Bool.and_eq_true, ih, beq_iff_eq]

/-- `getD` through `map`, for indices in range. -/
theorem getD_map_lt {α β : Type} (f : α → β) (l : List α) (i : Nat)
    (d : β) (d2 : α) (h : i < l.length) :
    (l.map f).getD i d = f (l.getD i d2) := by
  induction l generalizing i with
  | nil => simp at h
  | cons a t ih =>
    cases i with
    | zero => rfl
    | succ j =>
      simp only [List.map_cons, List.getD_cons_succ]
      exact ih j (by simpa using h)

/-- `getD` is unchanged by `take n` for indices below `n`. -/
theorem getD_take_eq {α : Type} (l : List α) (n i : Nat) (d : α) (h : i < n) :
    (l.take n).getD i d = l.getD i d := by
  induction l generalizing n i with
  | nil => simp
  | cons a t ih =>
    cases n with
    | zero => exact absurd h (Nat.not_lt_zero i)
    | succ m =>
      cases i with
      | zero => rfl
      | succ j =>
        simp only [List.take_succ_cons, List.getD_cons_succ]
        exact ih m j (Nat.lt_of_succ_lt_succ h)

/-- An element obtained by an in-range `getD` is a member of the list. -/
theorem getD_mem_of_lt {α : Type} (l : List α) (i : Nat) (d : α)
    (h : i < l.length) : l.getD i d ∈ l := by
  induction l generalizing i with
  | nil => simp at h
  | cons a t ih =>
    cases i with
    | zero => exact List.mem_cons_self a t
    | succ j => exact List.mem_cons_of_mem a (ih j (by simpa using h))

/-- The device-matching condition of `get_device_id_`, on string
descriptor values, is exact string equality of both capture groups. -/
theorem str_match_cond (ns ts n t : String) :
    (pyEqStr (PyVal.str ns) n && pyEqStr (PyVal.str ts) t) = true ↔
      (n = ns ∧ t = ts) := by
  constructor
  · intro h
    rw [Bool.and_eq_true] at h
    exact ⟨(beq_iff_eq.mp h.1).symm, (beq_iff_eq.mp h.2).symm⟩
  · rintro ⟨h1, h2⟩
    subst h1
    subst h2
    simp [pyEqStr]

/-- C1.  The claim says that answering the apply prompt with `y` makes
the Reconciler invoke the State Writer once per rule, in order, and
then re-run Checking.  The code does neither: the accept branch
(src/main.py line 132) calls `apply_map_` with the keyword arguments
`name_` and `type_`, which `apply_map_` (line 81) does not declare, so
Python raises `TypeError` at the call.  Evaluating the embedded code on
a one-rule document with a mismatched observed value and the input
`y`: the run ends in the uncaught `TypeError`, the trace holds the
single Checking read and the prompt, no `xsetwacom set` call at all,
and no second Checking pass. -/
theorem c1_accept_typeerror_no_writes :
    configure_map_ "7" (fun _ _ => "key b") [["Button", "1", "key a"]] ["y"] =
      { out := Outcome.typeErr,
        tr := [Ev.get ["xsetwacom", "get", "7", "Button", "1"], Ev.prompt] } := by
  decide

/-- C2.  For every document in which every rule's observed value equals
its expected value after trimming, `configure_map_` returns `True`
(Converged) with a trace of exactly one reader call per rule in
document order — so on the first Checking pass, with no prompt and no
State Writer call. -/
theorem c2_converged_first_pass (id : String) (reader : String → String → String)
    (rules : List (List String)) (inputs : List String)
    (h : ∀ r ∈ rules,
      pyStrip (reader (r.getD 0 "") (r.getD 1 "")) = pyStrip (r.getD 2 "")) :
    configure_map_ id reader rules inputs =
      { out := Outcome.retTrue,
        tr := rules.map (fun r =>
          Ev.get ["xsetwacom", "get", id, r.getD 0 "", r.getD 1 ""]) } := by
  have hok : (check_map_ id reader rules).ok = true :=
    (check_map_ok_iff id reader rules).mpr h
  simp [configure_map_, hok, check_map_tr]

/-- Witness for C2 at a concrete converged document. -/
theorem c2_converged_first_pass_witness :
    configure_map_ "7" (fun _ _ => "key a") [["Button", "1", "key a"]] [] =
      { out := Outcome.retTrue,
        tr := [Ev.get ["xsetwacom", "get", "7", "Button", "1"]] } :=
  c2_converged_first_pass "7" (fun _ _ => "key a") [["Button", "1", "key a"]] []
    (by decide)

/-- C3.  For every document with at least one mismatched rule, when the
user answers the apply prompt with `n`, `configure_map_` returns
`False` (Abandoned) at once: the whole trace is the single Checking
pass's reads followed by the one prompt — no further State Reader or
State Writer call of any kind, so device state is untouched from that
point on. -/
theorem c3_decline_abandons (id : String) (reader : String → String → String)
    (rules : List (List String)) (rest : List String)
    (h : ∃ r ∈ rules,
      pyStrip (reader (r.getD 0 "") (r.getD 1 "")) ≠ pyStrip (r.getD 2 "")) :
    configure_map_ id reader rules ("n" :: rest) =
      { out := Outcome.retFalse,
        tr := rules.map (fun r =>
          Ev.get ["xsetwacom", "get", id, r.getD 0 "", r.getD 1 ""]) ++ [Ev.prompt] } := by
  have hok : (check_map_ id reader rules).ok = false := by
    rcases h with ⟨r, hr, hne⟩
    cases hcase : (check_map_ id reader rules).ok with
    | false => rfl
    | true => exact absurd ((check_map_ok_iff id reader rules).mp hcase r hr) hne
  have hp : prompt_loop_ ("n" :: rest) = (Outcome.retFalse, [Ev.prompt]) := by
    rw [prompt_loop_]
    rw [if_neg (by decide), if_pos rfl]
  simp [configure_map_, hok, hp, check_map_tr]

/-- Witness for C3 at a concrete mismatched document. -/
theorem c3_decline_abandons_witness :
    configure_map_ "7" (fun _ _ => "key b") [["Button", "1", "key a"]] ["n"] =
      { out := Outcome.retFalse,
        tr := [Ev.get ["xsetwacom", "get", "7", "Button", "1"], Ev.prompt] } :=
  c3_decline_abandons "7" (fun _ _ => "key b") [["Button", "1", "key a"]] []
    (by decide)

/-- C4.  The Checking pass reports a rule as matched exactly when the
observed value with leading and trailing whitespace removed equals the
expected value with leading and trailing whitespace removed. -/
theorem c4_trim_comparison (id : String) (reader : String → String → String)
    (rules : List (List String)) (i : Nat) (h : i < rules.length) :
    ((check_map_ id reader rules).perRule.getD i false = true ↔
      pyStrip (reader ((rules.getD i []).getD 0 "") ((rules.getD i []).getD 1 "")) =
        pyStrip ((rules.getD i []).getD 2 "")) := by
  rw [check_map_perRule, getD_map_lt _ rules i false [] h]
  exact beq_iff_eq

/-- Witness for C4: an observed value `3 ` is reported as matching the
expected value `3`. -/
theorem c4_trim_comparison_witness :
    (((check_map_ "7" (fun _ _ => "3 ") [["Button", "1", "3"]]).perRule.getD 0 false = true) ↔
      pyStrip "3 " = pyStrip "3") ∧
    (check_map_ "7" (fun _ _ => "3 ") [["Button", "1", "3"]]).perRule.getD 0 false = true :=
  ⟨c4_trim_comparison "7" (fun _ _ => "3 ") [["Button", "1", "3"]] 0 (by decide),
    by decide⟩

/-- C5.  The Device Locator returns the id of the first parsed
enumeration line whose name and type capture groups both equal the
descriptor's name and type as exact (hence case-sensitive) string
equality — stated via `List.findSome?`, which returns the first hit and
`none` when no line matches.  And when no line matches, the script
exits at the `DeviceNotFound` check: the run's whole event trace is the
single enumeration call, with no State Reader, State Writer or prompt
activity. -/
theorem c5_locator_first_exact_match (ns ts : String) (lines : List String)
    (parsed : Option PyVal) (doc nameV tyV : PyVal) (devLines : List String)
    (reader : String → String → String) (inputs : List String) :
    (get_device_id_ (PyVal.str ns) (PyVal.str ts) lines =
      lines.findSome? (fun l =>
        match device_matcher_fullmatch_ l with
        | some (n, i, t) => if n = ns ∧ t = ts then some i else none
        | none => none)) ∧
    (parse_mapping_file_ parsed = PyResult.retDoc doc →
      pyFalsy doc = false →
      pyGetItem "name" doc = some nameV →
      pyGetItem "type" doc = some tyV →
      get_device_id_ nameV tyV devLines = none →
      run_ true parsed devLines reader inputs = (RunOut.exitNoDevice, [Ev.listDev])) := by
  constructor
  · induction lines with
    | nil => rfl
    | cons l rest ih =>
      cases hm : device_matcher_fullmatch_ l with
      | none => simp [get_device_id_, hm, List.findSome?_cons, ih]
      | some g =>
        obtain ⟨n, i, t⟩ := g
        cases hb : (pyEqStr (PyVal.str ns) n && pyEqStr (PyVal.str ts) t) with
        | true =>
          obtain ⟨h1, h2⟩ := (str_match_cond ns ts n t).mp hb
          subst h1
          subst h2
          simp [get_device_id_, hm, List.findSome?_cons, hb]
        | false =>
          have hc : ¬(n = ns ∧ t = ts) := by
            intro hcc
            rw [(str_match_cond ns ts n t).mpr hcc] at hb
            exact Bool.noConfusion hb
          simp [get_device_id_, hm, List.findSome?_cons, hb, hc, ih]
  · intro hp hf hn ht hd
    simp [run_, hp, hf, hn, ht, hd]

/-- Witness for C5: the descriptor `Pad A`/`PAD` does not match the
enumerated line for `pad a`/`PAD` (case-sensitive comparison), the
first-match characterisation holds there, and the full run exits at
device resolution with only the enumeration call in its trace. -/
theorem c5_locator_first_exact_match_witness :
    (get_device_id_ (PyVal.str "Pad A") (PyVal.str "PAD") ["pad a  id: 7  type: PAD"] =
      (["pad a  id: 7  type: PAD"].findSome? (fun l =>
        match device_matcher_fullmatch_ l with
        | some (n, i, t) => if n = "Pad A" ∧ t = "PAD" then some i else none
        | none => none))) ∧
    (run_ true
      (some (PyVal.dict [("name", PyVal.str "Pad A"), ("type", PyVal.str "PAD"),
        ("map", PyVal.list [])]))
      ["pad a  id: 7  type: PAD"] (fun _ _ => "") [] =
      (RunOut.exitNoDevice, [Ev.listDev])) ∧
    get_device_id_ (PyVal.str "Pad A") (PyVal.str "PAD") ["pad a  id: 7  type: PAD"] =
      none :=
  ⟨(c5_locator_first_exact_match "Pad A" "PAD" ["pad a  id: 7  type: PAD"]
      (some (PyVal.dict [("name", PyVal.str "Pad A"), ("type", PyVal.str "PAD"),
        ("map", PyVal.list [])]))
      (PyVal.dict [("name", PyVal.str "Pad A"), ("type", PyVal.str "PAD"),
        ("map", PyVal.list [])])
      (PyVal.str "Pad A") (PyVal.str "PAD") ["pad a  id: 7  type: PAD"]
      (fun _ _ => "") []).1,
   (c5_locator_first_exact_match "Pad A" "PAD" ["pad a  id: 7  type: PAD"]
      (some (PyVal.dict [("name", PyVal.str "Pad A"), ("type", PyVal.str "PAD"),
        ("map", PyVal.list [])]))
      (PyVal.dict [("name", PyVal.str "Pad A"), ("type", PyVal.str "PAD"),
        ("map", PyVal.list [])])
      (PyVal.str "Pad A") (PyVal.str "PAD") ["pad a  id: 7  type: PAD"]
      (fun _ _ => "") []).2 rfl rfl rfl rfl rfl,
   rfl⟩

/-- C6.  Enumeration lines that do not fullmatch the device regex are
simply not candidates: the Device Locator's result over any line list
equals its result over the sublist of parsing lines, so malformed lines
are skipped without error and without aborting the scan. -/
theorem c6_malformed_lines_skipped (name ty : PyVal) (lines : List String) :
    get_device_id_ name ty
      (lines.filter (fun l => (device_matcher_fullmatch_ l).isSome)) =
      get_device_id_ name ty lines := by
  induction lines with
  | nil => rfl
  | cons l rest ih =>
    cases hm : device_matcher_fullmatch_ l with
    | none =>
      have hs : ((device_matcher_fullmatch_ l).isSome : Bool) = false := by
        rw [hm]
        rfl
      simp [List.filter_cons, hs, get_device_id_, hm, ih]
    | some g =>
      have hs : ((device_matcher_fullmatch_ l).isSome : Bool) = true := by
        rw [hm]
        rfl
      obtain ⟨n, i, t⟩ := g
      simp only [List.filter_cons, hs, if_pos]
      simp only [get_device_id_, hm]
      cases hb : (pyEqStr name n && pyEqStr ty t) with
      | true => simp
      | false => simp [ih]

/-- On an object (dict) document, `parse_mapping_file_` returns the
document when all three keys are present and `None` otherwise. -/
theorem parse_mapping_file_dict_char (es : List (String × PyVal)) :
    parse_mapping_file_ (some (PyVal.dict es)) =
      (if (es.map Prod.fst).contains "name" && (es.map Prod.fst).contains "type" &&
          (es.map Prod.fst).contains "map"
        then PyResult.retDoc (PyVal.dict es) else PyResult.retNone) := by
  cases h1 : (es.map Prod.fst).contains "name" <;>
    cases h2 : (es.map Prod.fst).contains "type" <;>
      cases h3 : (es.map Prod.fst).contains "map" <;>
        simp only [parse_mapping_file_, pyContains, h1, h2, h3] <;> simp

/-- C7 counterexample.  The claim says a missing required top-level
field always yields `InvalidMappingFile` (a `None` return).  But the
membership test `_b not in _a` (src/main.py line 76) is Python's
generic `in`: on a file whose JSON value is the top-level *string*
`"name type map"`, the three tests are substring checks that all
succeed, and the function returns that string as the document even
though it has no top-level fields at all. -/
theorem c7_nonobject_doc_counterexample :
    parse_mapping_file_ (some (PyVal.str "name type map")) =
      PyResult.retDoc (PyVal.str "name type map") ∧
    hasTopField (PyVal.str "name type map") "name" = false :=
  ⟨rfl, rfl⟩

/-- C7, amended to documents that deserialize to a JSON object (the
only case in which `required top-level fields` exist): the Mapping
Source returns the parsed document exactly when the file is readable,
deserializes (to an object), and all three fields `name`, `type`,
`map` are present; any parse failure, unreadable file, or missing
field yields a `None` return, never an exception; and on a `None`
return the run exits before device resolution or reconciliation — its
event trace is empty. -/
theorem c7_mapping_source_object_docs (parsed : Option PyVal)
    (hd : ∀ v, parsed = some v → ∃ es, v = PyVal.dict es) :
    (∀ v, parse_mapping_file_ parsed = PyResult.retDoc v ↔
      (parsed = some v ∧ hasTopField v "name" = true ∧ hasTopField v "type" = true ∧
        hasTopField v "map" = true)) ∧
    parse_mapping_file_ parsed ≠ PyResult.raised ∧
    (∀ devLines reader inputs,
      parse_mapping_file_ parsed = PyResult.retNone →
      run_ true parsed devLines reader inputs = (RunOut.exitBadMap, [])) := by
  have hrun : ∀ devLines (reader : String → String → String) inputs,
      parse_mapping_file_ parsed = PyResult.retNone →
      run_ true parsed devLines reader inputs = (RunOut.exitBadMap, []) := by
    intro devLines reader inputs hnone
    simp [run_, hnone]
  cases parsed with
  | none =>
    refine ⟨?_, ?_, hrun⟩
    · intro v
      constructor
      · intro hcontra
        exact absurd hcontra (by simp [parse_mapping_file_])
      · rintro ⟨hv, -, -, -⟩
        exact Option.noConfusion hv
    · simp [parse_mapping_file_]
  | some a =>
    obtain ⟨es, rfl⟩ := hd a rfl
    rw [parse_mapping_file_dict_char] at hrun ⊢
    refine ⟨?_, ?_, hrun⟩
    · intro v
      rcases Bool.eq_false_or_eq_true ((es.map Prod.fst).contains "name" &&
          (es.map Prod.fst).contains "type" && (es.map Prod.fst).contains "map") with
        hcond | hcond
      case inr =>
        rw [if_neg (fun hh => Bool.noConfusion (hcond ▸ hh))]
        constructor
        · intro hcontra
          exact PyResult.noConfusion hcontra
        · rintro ⟨hv, hn, ht, hm⟩
          injection hv with hv
          subst hv
          rw [hasTopField] at hn ht hm
          rw [hn, ht, hm] at hcond
          exact Bool.noConfusion hcond
      case inl =>
        rw [if_pos hcond]
        obtain ⟨⟨hn, ht⟩, hm⟩ := by
          rw [Bool.and_eq_true, Bool.and_eq_true] at hcond
          exact hcond
        constructor
        · intro hret
          injection hret with hv
          subst hv
          exact ⟨rfl, hn, ht, hm⟩
        · rintro ⟨hv, -, -, -⟩
          injection hv with hv
          subst hv
          rfl
    · rcases Bool.eq_false_or_eq_true ((es.map Prod.fst).contains "name" &&
          (es.map Prod.fst).contains "type" && (es.map Prod.fst).contains "map") with
        hcond | hcond
      case inr =>
        rw [if_neg (fun hh => Bool.noConfusion (hcond ▸ hh))]
        exact fun hh => PyResult.noConfusion hh
      case inl =>
        rw [if_pos hcond]
        exact fun hh => PyResult.noConfusion hh

/-- Witness for C7's amended theorem at a concrete object document with
a missing `type` field: the parse returns `None` and the run exits with
an empty event trace. -/
theorem c7_mapping_source_object_docs_witness :
    run_ true (some (PyVal.dict [("name", PyVal.str "X")])) [] (fun _ _ => "") [] =
      (RunOut.exitBadMap, []) :=
  (c7_mapping_source_object_docs (some (PyVal.dict [("name", PyVal.str "X")]))
    (fun v hv => ⟨[("name", PyVal.str "X")], by injection hv with h; exact h.symm⟩)).2.2
    [] (fun _ _ => "") [] rfl

/-- C8.  A failed State Reader call for one rule — the `subprocess.run`
result is captured with its exit status never inspected, so a nonzero
exit or garbage stdout just makes the captured text fail the trimmed
comparison — does not abort the pass: the scan still issues exactly one
read per rule in order, the overall result is a reported mismatch, the
failing rule is marked unmatched, and every other rule's verdict is
still its own trimmed comparison, unaffected by the failure. -/
theorem c8_reader_failure_is_rule_mismatch (id : String)
    (reader : String → String → String) (rules : List (List String)) (i : Nat)
    (hi : i < rules.length)
    (hmis : pyStrip (reader ((rules.getD i []).getD 0 "") ((rules.getD i []).getD 1 "")) ≠
      pyStrip ((rules.getD i []).getD 2 "")) :
    (check_map_ id reader rules).ok = false ∧
    (check_map_ id reader rules).perRule.getD i true = false ∧
    (check_map_ id reader rules).tr =
      rules.map (fun r => Ev.get ["xsetwacom", "get", id, r.getD 0 "", r.getD 1 ""]) ∧
    (∀ j, j < rules.length → j ≠ i →
      ((check_map_ id reader rules).perRule.getD j false = true ↔
        pyStrip (reader ((rules.getD j []).getD 0 "") ((rules.getD j []).getD 1 "")) =
          pyStrip ((rules.getD j []).getD 2 ""))) := by
  refine ⟨?_, ?_, check_map_tr id reader rules, ?_⟩
  · cases hcase : (check_map_ id reader rules).ok with
    | false => rfl
    | true =>
      exact absurd
        ((check_map_ok_iff id reader rules).mp hcase (rules.getD i [])
          (getD_mem_of_lt rules i [] hi)) hmis
  · rw [check_map_perRule, getD_map_lt _ rules i true [] hi]
    exact beq_eq_false_iff_ne.mpr hmis
  · intro j hj hne
    rw [check_map_perRule, getD_map_lt _ rules j false [] hj]
    exact beq_iff_eq

/-- Witness for C8: the reader produces garbage for the first rule
only; the pass reports an overall mismatch and marks that rule
unmatched, while the second rule still passes. -/
theorem c8_reader_failure_is_rule_mismatch_witness :
    (check_map_ "7" (fun p _ => if p = "A" then "ERR" else " y ")
      [["A", "1", "x"], ["B", "2", "y"]]).ok = false ∧
    (check_map_ "7" (fun p _ => if p = "A" then "ERR" else " y ")
      [["A", "1", "x"], ["B", "2", "y"]]).perRule.getD 0 true = false ∧
    (check_map_ "7" (fun p _ => if p = "A" then "ERR" else " y ")
      [["A", "1", "x"], ["B", "2", "y"]]).perRule.getD 1 false = true :=
  ⟨(c8_reader_failure_is_rule_mismatch "7" (fun p _ => if p = "A" then "ERR" else " y ")
      [["A", "1", "x"], ["B", "2", "y"]] 0 (by decide) (by decide)).1,
   (c8_reader_failure_is_rule_mismatch "7" (fun p _ => if p = "A" then "ERR" else " y ")
      [["A", "1", "x"], ["B", "2", "y"]] 0 (by decide) (by decide)).2.1,
   by decide⟩

/-- C9.  The claim's re-prompt half holds in the code: an answer other
than `y`/`n` issues a new prompt with no State Reader or State Writer
call in between.  Its exit half does not: the claim says the loop exits
only by returning Converged or Abandoned, but answering `y` makes the
accept branch raise `TypeError` (the `apply_map_` call of src/main.py
line 132 passes keyword arguments `name_`/`type_` that `apply_map_`
does not accept), an exit that is neither.  Evaluating the embedded
code on a mismatched one-rule document with inputs `maybe` then `y`:
the invalid answer only adds a prompt event, and the run then ends in
the uncaught `TypeError` with no write and no further read. -/
theorem c9_reprompt_then_typeerror_exit :
    configure_map_ "7" (fun _ _ => "key b") [["Button", "1", "key a"]]
      ["maybe", "y"] =
      { out := Outcome.typeErr,
        tr := [Ev.get ["xsetwacom", "get", "7", "Button", "1"],
               Ev.prompt, Ev.prompt] } := by
  decide

/-- C10.  Every State Writer command transmits exactly the rule's first
three elements after the fixed `xsetwacom set id` head, and nothing
else: the command list per rule is six entries with no fourth rule
element, and truncating every rule to its first three elements leaves
the issued commands unchanged, so an optional label has no effect on
what is written. -/
theorem c10_label_not_transmitted (id : String) (rules : List (List String)) :
    apply_map_ id rules =
      rules.map (fun r =>
        Ev.set ["xsetwacom", "set", id, r.getD 0 "", r.getD 1 "", r.getD 2 ""]) ∧
    apply_map_ id (rules.map (fun r => r.take 3)) = apply_map_ id rules := by
  constructor
  · induction rules with
    | nil => rfl
    | cons r rs ih => simp [apply_map_, ih]
  · induction rules with
    | nil => rfl
    | cons r rs ih =>
      simp only [List.map_cons, apply_map_, ih,
        getD_take_eq r 3 0 "" (by decide), getD_take_eq r 3 1 "" (by decide),
        getD_take_eq r 3 2 "" (by decide)]
